import Mathlib

/-
Shallow embedding of the Telegram crime-assist bot (src/bot.py).

The per-user `context.user_data` dict is modelled as a record `UserData`:
the code only ever stores `faq_topic` (a string, possibly empty),
`awaiting_ip = True` and `awaiting_hash = True`, so key absence is `none`
(respectively `false`).  Telegram side effects and interaction-log writes
are modelled as an explicit trace of `Event`s, in the order the code
performs them.  The generative-text backend and the IP-geolocation
backend are parameters (`String → GeminiOutcome`, `String → IpOutcome`);
Python exceptions raised by them are explicit outcome constructors, and
Python dict indexing (which may raise `KeyError`) is an `Except` value.
-/

/-- Per-user state: models `context.user_data` for one user. -/
structure UserData where
  faqTopic : Option String
  awaitingIp : Bool
  awaitingHash : Bool
  deriving Repr, DecidableEq

/-- The fresh (empty-dict) user state. -/
def emptyUserData : UserData := { faqTopic := none, awaitingIp := false, awaitingHash := false }

/-- One observable effect of a handler, in program order: the callback
acknowledgement (`query.answer()`), a chat action, an interaction-log write
(`log_interaction`), an `edit_message_text`, or a `reply_text`. -/
inductive Event where
  | answerCallback : Event
  | sendChatAction (a : String) : Event
  | logEntry (userId : Nat) (action : String) (data : List (String × String)) : Event
  | editMessage (text : String) : Event
  | replyMessage (text : String) : Event
  deriving Repr, DecidableEq

/-- Result of one handler invocation: the user state afterwards and the
emitted effect trace. -/
structure HandleResult where
  state : UserData
  events : List Event
  deriving Repr, DecidableEq

/-- Python string slicing `s[:n]` (by code points). -/
def pyTruncate (s : String) (n : Nat) : String := String.mk (s.data.take n)

/-- Python `s.startswith(pre)`. -/
def pyStartsWith (s pre : String) : Bool := List.isPrefixOf pre.data s.data

/-- The characters after the first occurrence of `c`: the tail component of
Python `s.split(c, 1)`.  (On a list without `c`, Python would raise
IndexError on the `[1]` index; in `button_router` the call is guarded by
`startswith('faq_')`, so the separator is always present.) -/
def splitAfterFirst : List Char → Char → List Char
  | [], _ => []
  | x :: xs, c => if x == c then xs else splitAfterFirst xs c

/-- Python `s.split(c, 1)[1]` under the guard that `c` occurs in `s`. -/
def pySplitOnceAfter (s : String) (c : Char) : String := String.mk (splitAfterFirst s.data c)

/-- Python `str.title()` (ASCII approximation: a letter is uppercased when
the previous character was not a letter, lowercased otherwise). -/
def pyTitleAux : List Char → Bool → List Char
  | [], _ => []
  | c :: cs, prevAlpha =>
    if c.isAlpha then
      (if prevAlpha then c.toLower else c.toUpper) :: pyTitleAux cs true
    else
      c :: pyTitleAux cs false

/-- Python `s.title()`. -/
def pyTitle (s : String) : String := String.mk (pyTitleAux s.data false)

/-- Python truthiness of an optional string (`if topic:`): `None` and the
empty string are falsy. -/
def pyTruthyStr : Option String → Bool
  | none => false
  | some t => !(t == "")

/-- Outcome of one call to the generative-text backend
(`model.generate_content(prompt)` followed by `response.text`): either the
response text or a raised exception's description. -/
inductive GeminiOutcome where
  | ok (text : String) : GeminiOutcome
  | err (msg : String) : GeminiOutcome
  deriving Repr, DecidableEq

/-- The prompt built by `ask_gemini` (bot.py lines 66-69): a framing wrapper
when `topic` is truthy, the bare question otherwise. -/
def geminiPrompt (question : String) (topic : Option String) : String :=
  if pyTruthyStr topic then
    "Please answer this question about " ++ topic.getD "" ++
      " laws and regulations in India:\n\n" ++ question
  else
    question

/-- `ask_gemini` (bot.py lines 63-74).  The whole body is inside
`try/except Exception`, so every backend outcome maps to a returned string:
on success the stripped response text, on failure the degraded message
embedding `str(e)[:100]`. -/
def ask_gemini (backend : String → GeminiOutcome) (question : String)
    (topic : Option String) : String :=
  match backend (geminiPrompt question topic) with
  | GeminiOutcome.ok t => t.trim
  | GeminiOutcome.err e =>
    "❗️ Sorry, FAQ service is temporarily unavailable. Error: " ++ pyTruncate e 100 ++ "..."

/-- Outcome of `requests.get(ip_api).json()`: a raised exception's
description (connection error, non-JSON body, ...) or a parsed JSON object,
modelled as an association list of string fields. -/
inductive IpOutcome where
  | transportError (e : String) : IpOutcome
  | response (res : List (String × String)) : IpOutcome
  deriving Repr, DecidableEq

/-- Python dict lookup returning an optional value. -/
def dictGet (d : List (String × String)) (k : String) : Option String :=
  (d.find? (fun p => p.1 == k)).map (fun p => p.2)

/-- Python `str(KeyError(k))`, which is the key in single quotes. -/
def pyKeyError (k : String) : String := "\x27" ++ k ++ "\x27"

/-- Python `d[k]`: the value, or a raised `KeyError`. -/
def pyDictItem (d : List (String × String)) (k : String) : Except String String :=
  match dictGet d k with
  | some v => Except.ok v
  | none => Except.error (pyKeyError k)

/-- The URL built for the IP lookup (bot.py line 192). -/
def ipApiUrl (text : String) : String := "http://ip-api.com/json/" ++ text

/-- The `try` block of the IP branch (bot.py lines 191-197): fetch, parse,
then read `res['status']`; on `'success'` read the five display fields, else
read `res['message']`.  Each dict index may raise `KeyError` (first missing
key wins), and the transport call may raise; `Except.error` carries the
exception description that the `except` clause would format. -/
def ipTryBlock (backend : String → IpOutcome) (text : String) : Except String String :=
  match backend (ipApiUrl text) with
  | IpOutcome.transportError e => Except.error e
  | IpOutcome.response res =>
    match dictGet res "status" with
    | none => Except.error (pyKeyError "status")
    | some status =>
      if status == "success" then
        match dictGet res "query" with
        | none => Except.error (pyKeyError "query")
        | some q =>
          match dictGet res "city" with
          | none => Except.error (pyKeyError "city")
          | some city =>
            match dictGet res "regionName" with
            | none => Except.error (pyKeyError "regionName")
            | some region =>
              match dictGet res "country" with
              | none => Except.error (pyKeyError "country")
              | some country =>
                match dictGet res "isp" with
                | none => Except.error (pyKeyError "isp")
                | some isp =>
                  Except.ok ("🌐 IP: " ++ q ++ "\nCity: " ++ city ++ "\nRegion: " ++
                    region ++ "\nCountry: " ++ country ++ "\nISP: " ++ isp)
      else
        match dictGet res "message" with
        | none => Except.error (pyKeyError "message")
        | some m => Except.ok ("⚠️ Error: " ++ m)

/-- The IP branch's result string (bot.py lines 191-199): the `try` block's
value, or on any exception the `except` clause's formatted string. -/
def ipLookupResult (backend : String → IpOutcome) (text : String) : String :=
  match ipTryBlock backend text with
  | Except.ok r => r
  | Except.error e => "❌ Failed to fetch IP info: " ++ e

/-- The fixed stub of the hash branch (bot.py line 208). -/
def hashCheckResult : String := "File hash check: No known threats found (dummy)."

/-- Main-menu text rendered by `show_main_menu` (bot.py line 84). -/
def mainMenuText : String := "👮 *Crime Assist Bot*\nSelect an option:"

/-- Emergency-contacts text (bot.py lines 159-163).  `\x27` is the ASCII
apostrophe of the source string. -/
def emergencyText : String :=
  "🚨 *Emergency Contacts*\n• Police: 100\n• Women\x27s Helpline: 1091\n• Cyber Crime: 1930\n• Ambulance: 102"

/-- `handle_text` (bot.py lines 171-219): strips the inbound text, sends a
typing action, then dispatches on the first matching flag.  Each branch
`pop`s exactly the keys the Python code pops before returning, logs the
query and the result, and replies. -/
def handle_text (gemini : String → GeminiOutcome) (ipb : String → IpOutcome)
    (userId : Nat) (rawText : String) (ud : UserData) : HandleResult :=
  let text := rawText.trim
  match ud.faqTopic with
  | some topic =>
    let answer := ask_gemini gemini text (some topic)
    { state := { ud with faqTopic := none },
      events := [Event.sendChatAction "typing",
        Event.logEntry userId "faq_question" [("topic", topic), ("question", text)],
        Event.replyMessage "🔍 Searching for answer...",
        Event.logEntry userId "faq_answer" [("topic", topic), ("answer", answer)],
        Event.replyMessage answer] }
  | none =>
    if ud.awaitingIp then
      let result := ipLookupResult ipb text
      { state := { ud with awaitingIp := false },
        events := [Event.sendChatAction "typing",
          Event.logEntry userId "ip_query" [("ip", text)],
          Event.logEntry userId "ip_result" [("result", result)],
          Event.replyMessage result] }
    else if ud.awaitingHash then
      { state := { ud with awaitingIp := false, awaitingHash := false },
        events := [Event.sendChatAction "typing",
          Event.logEntry userId "hash_query" [("hash", text)],
          Event.logEntry userId "hash_result" [("result", hashCheckResult)],
          Event.replyMessage hashCheckResult] }
    else
      let answer := ask_gemini gemini text none
      { state := { ud with awaitingIp := false, awaitingHash := false },
        events := [Event.sendChatAction "typing",
          Event.logEntry userId "general_question" [("question", text)],
          Event.replyMessage "🔍 Looking for an answer...",
          Event.logEntry userId "general_answer" [("answer", answer)],
          Event.replyMessage answer] }

/-- `button_router` (bot.py lines 106-169): acknowledges the callback, logs
the raw token as a `button_click`, then runs the `if/elif` chain in source
order.  An unmatched token falls off the chain with no further effect. -/
def button_router (userId : Nat) (choice : String) (ud : UserData) : HandleResult :=
  let ev0 : List Event :=
    [Event.answerCallback, Event.logEntry userId "button_click" [("choice", choice)]]
  if choice == "menu_faq" then
    { state := ud, events := ev0 ++ [Event.editMessage "❓ *FAQs Menu*\nChoose a topic:"] }
  else if pyStartsWith choice "faq_" then
    let topic := pySplitOnceAfter choice '_'
    { state := { ud with faqTopic := some topic },
      events := ev0 ++
        [Event.editMessage ("💬 *" ++ pyTitle topic ++ " FAQ*\nPlease type your question:")] }
  else if choice == "menu_tools" then
    { state := ud, events := ev0 ++ [Event.editMessage "🛠️ *Tools Menu*\nChoose a tool:"] }
  else if choice == "tool_ip" then
    { state := { ud with awaitingIp := true },
      events := ev0 ++ [Event.editMessage "🔎 Please send an IP address:"] }
  else if choice == "tool_hash" then
    { state := { ud with awaitingHash := true },
      events := ev0 ++ [Event.editMessage "🔑 Please send a file hash:"] }
  else if choice == "menu_emergency" then
    { state := ud, events := ev0 ++ [Event.editMessage emergencyText] }
  else if choice == "back_to_main" then
    { state := ud, events := ev0 ++ [Event.editMessage mainMenuText] }
  else
    { state := ud, events := ev0 }

/-- The callback tokens that match some branch of `button_router`'s chain. -/
def recognizedToken (choice : String) : Bool :=
  choice == "menu_faq" || pyStartsWith choice "faq_" || choice == "menu_tools" ||
  choice == "tool_ip" || choice == "tool_hash" || choice == "menu_emergency" ||
  choice == "back_to_main"

/-- The actions of the interaction-log entries of a trace, in order. -/
def logActions : List Event → List String
  | [] => []
  | Event.logEntry _ a _ :: es => a :: logActions es
  | _ :: es => logActions es

/-- Number of user-visible reply messages in a trace (replies and message
edits both render text to the user). -/
def countReplies : List Event → Nat
  | [] => 0
  | Event.replyMessage _ :: es => countReplies es + 1
  | Event.editMessage _ :: es => countReplies es + 1
  | _ :: es => countReplies es

/-- A concrete always-succeeding generative backend, for witnesses. -/
def okGemini : String → GeminiOutcome := fun _ => GeminiOutcome.ok "an answer"

/-- A concrete always-failing generative backend, for witnesses. -/
def errGemini : String → GeminiOutcome := fun _ => GeminiOutcome.err "boom"

/-- A concrete IP backend returning a structured failure, for witnesses. -/
def failIpBackend : String → IpOutcome :=
  fun _ => IpOutcome.response [("status", "fail"), ("message", "invalid query")]

/-- The state reached from a fresh user by clicking `tool_ip` and then
`tool_hash`: both awaiting flags end up set. -/
def twoFlagsState : UserData :=
  (button_router 1 "tool_hash" (button_router 1 "tool_ip" emptyUserData).state).state

/-- The data of a string with the literal head "faq_" prepended. -/
theorem data_faq_append (r : String) :
    ("faq_" ++ r).data = 'f' :: 'a' :: 'q' :: '_' :: r.data := by
  simp [String.data_append]

/-- Every token of the form `faq_<rest>` passes the `startswith('faq_')` guard. -/
theorem pyStartsWith_faq_append (r : String) : pyStartsWith ("faq_" ++ r) "faq_" = true := by
  unfold pyStartsWith
  rw [data_faq_append]
  simp [List.isPrefixOf]

/-- Splitting `faq_<rest>` at the first underscore yields `<rest>`. -/
theorem pySplitOnceAfter_faq_append (r : String) : pySplitOnceAfter ("faq_" ++ r) '_' = r := by
  unfold pySplitOnceAfter
  rw [data_faq_append]
  simp [splitAfterFirst]

/-- No token of the form `faq_<rest>` equals the earlier-checked `menu_faq`. -/
theorem faq_append_beq_menu_faq (r : String) : (("faq_" ++ r) == "menu_faq") = false := by
  refine beq_eq_false_iff_ne.mpr ?_
  intro h
  have h2 := congrArg String.data h
  rw [data_faq_append] at h2
  simp at h2

/-- Every `button_router` trace opens with the callback acknowledgement and
the `button_click` log entry, and the remainder holds no log entry. -/
theorem button_router_shape (u : Nat) (c : String) (ud : UserData) :
    ∃ rest, (button_router u c ud).events
        = Event.answerCallback :: Event.logEntry u "button_click" [("choice", c)] :: rest
      ∧ logActions rest = [] := by
  rcases Bool.eq_false_or_eq_true (c == "menu_faq") with h1 | h1 <;>
    rcases Bool.eq_false_or_eq_true (pyStartsWith c "faq_") with h2 | h2 <;>
    rcases Bool.eq_false_or_eq_true (c == "menu_tools") with h3 | h3 <;>
    rcases Bool.eq_false_or_eq_true (c == "tool_ip") with h4 | h4 <;>
    rcases Bool.eq_false_or_eq_true (c == "tool_hash") with h5 | h5 <;>
    rcases Bool.eq_false_or_eq_true (c == "menu_emergency") with h6 | h6 <;>
    rcases Bool.eq_false_or_eq_true (c == "back_to_main") with h7 | h7 <;>
    simp only [button_router, h1, h2, h3, h4, h5, h6, h7, Bool.false_eq_true, if_true,
      if_false, List.cons_append, List.nil_append] <;>
    exact ⟨_, rfl, rfl⟩

/-- A token matching no branch of the chain leaves the state untouched and
emits only the acknowledgement and the `button_click` log entry. -/
theorem button_router_unrecognized (u : Nat) (c : String) (ud : UserData)
    (h : recognizedToken c = false) :
    button_router u c ud
      = { state := ud,
          events := [Event.answerCallback, Event.logEntry u "button_click" [("choice", c)]] } := by
  simp only [recognizedToken, Bool.or_eq_false_iff] at h
  obtain ⟨⟨⟨⟨⟨⟨h1, h2⟩, h3⟩, h4⟩, h5⟩, h6⟩, h7⟩ := h
  simp [button_router, h1, h2, h3, h4, h5, h6, h7]

/-- Truncation to `n` code points yields a string of length at most `n`. -/
theorem pyTruncate_length_le (s : String) (n : Nat) : (pyTruncate s n).length ≤ n := by
  show (s.data.take n).length ≤ n
  rw [List.length_take]
  exact Nat.min_le_left _ _

/-- C1 counterexample: the claimed mutual-exclusivity invariant fails on a
concrete reachable state.  From a fresh user, clicking `tool_ip` and then
`faq_cyber` leaves both `awaitingIp` and `pendingFaqTopic` set, because the
`faq_<topic>` branch of `button_router` does not clear the awaiting flags. -/
theorem C1_counterexample :
    (button_router 1 "faq_cyber" (button_router 1 "tool_ip" emptyUserData).state).state.faqTopic
        = some "cyber" ∧
    (button_router 1 "faq_cyber" (button_router 1 "tool_ip" emptyUserData).state).state.awaitingIp
        = true :=
  ⟨rfl, rfl⟩

/-- C1 (amended): each menu-setting branch of `button_router` sets only its
own flag and leaves the other two flags of the user's state unchanged; no
branch clears the other flags, and the pure menu-rendering tokens leave the
state untouched, so several flags can be set simultaneously. -/
theorem C1_menu_ops_set_only_own_flag (u : Nat) (ud : UserData) (r : String) :
    (button_router u "tool_ip" ud).state = { ud with awaitingIp := true } ∧
    (button_router u "tool_hash" ud).state = { ud with awaitingHash := true } ∧
    (button_router u ("faq_" ++ r) ud).state = { ud with faqTopic := some r } ∧
    (button_router u "menu_faq" ud).state = ud ∧
    (button_router u "menu_tools" ud).state = ud ∧
    (button_router u "menu_emergency" ud).state = ud ∧
    (button_router u "back_to_main" ud).state = ud := by
  refine ⟨rfl, rfl, ?_, rfl, rfl, rfl, rfl⟩
  simp [button_router, faq_append_beq_menu_faq, pyStartsWith_faq_append,
    pySplitOnceAfter_faq_append]

/-- C2 counterexample: with both awaiting flags set (reachable from a fresh
user via `tool_ip` then `tool_hash`), the first free-text message matches
and clears `awaitingIp`, yet the second consecutive free-text message is
dispatched to the hash branch, not to the general-question default. -/
theorem C2_counterexample :
    twoFlagsState.awaitingIp = true ∧ twoFlagsState.awaitingHash = true ∧
    logActions (handle_text okGemini failIpBackend 1 "8.8.8.8" twoFlagsState).events
        = ["ip_query", "ip_result"] ∧
    logActions (handle_text okGemini failIpBackend 1 "again"
        (handle_text okGemini failIpBackend 1 "8.8.8.8" twoFlagsState).state).events
        = ["hash_query", "hash_result"] :=
  ⟨rfl, rfl, rfl, rfl⟩

/-- C2 (amended): flags are one-shot — a free-text message leaves all three
flags of the user's state clear, and a second consecutive free-text message
is dispatched to the general-question default path — provided at most one
flag was set beforehand (two of the three unset), a precondition the menu
operations themselves do not enforce. -/
theorem C2_one_shot_flags (g : String → GeminiOutcome) (ipb : String → IpOutcome)
    (u : Nat) (t1 t2 : String) (ud : UserData)
    (h : (ud.awaitingIp = false ∧ ud.awaitingHash = false) ∨
         (ud.faqTopic = none ∧ ud.awaitingHash = false) ∨
         (ud.faqTopic = none ∧ ud.awaitingIp = false)) :
    ((handle_text g ipb u t1 ud).state.faqTopic = none ∧
     (handle_text g ipb u t1 ud).state.awaitingIp = false ∧
     (handle_text g ipb u t1 ud).state.awaitingHash = false) ∧
    logActions (handle_text g ipb u t2 (handle_text g ipb u t1 ud).state).events
        = ["general_question", "general_answer"] := by
  rcases ud with ⟨ft, ip, hs⟩
  cases ft <;> cases ip <;> cases hs <;> simp_all [handle_text, logActions]

/-- C2 witness: a consumed FAQ flag, with the other flags unset, leads the
second message to the general-question path. -/
theorem C2_one_shot_flags_witness :
    ((handle_text okGemini failIpBackend 1 "q1"
        { faqTopic := some "cyber", awaitingIp := false, awaitingHash := false }).state.faqTopic
          = none ∧
     (handle_text okGemini failIpBackend 1 "q1"
        { faqTopic := some "cyber", awaitingIp := false, awaitingHash := false }).state.awaitingIp
          = false ∧
     (handle_text okGemini failIpBackend 1 "q1"
        { faqTopic := some "cyber", awaitingIp := false, awaitingHash := false }).state.awaitingHash
          = false) ∧
    logActions (handle_text okGemini failIpBackend 1 "q2"
        (handle_text okGemini failIpBackend 1 "q1"
          { faqTopic := some "cyber", awaitingIp := false, awaitingHash := false }).state).events
        = ["general_question", "general_answer"] :=
  C2_one_shot_flags okGemini failIpBackend 1 "q1" "q2"
    { faqTopic := some "cyber", awaitingIp := false, awaitingHash := false }
    (Or.inl ⟨rfl, rfl⟩)

/-- C3 (confirmed): `handle_text` selects exactly one branch in the fixed
order pending-FAQ-topic, awaiting-IP, awaiting-hash, general question; the
taken branch calls the matching adapter on the stripped text, logs its pair
of entries, and clears only its own flag, leaving the other flags of the
user's state unchanged. -/
theorem C3_dispatch_priority (g : String → GeminiOutcome) (ipb : String → IpOutcome)
    (u : Nat) (t : String) (ud : UserData) :
    (∀ topic, ud.faqTopic = some topic →
        (handle_text g ipb u t ud).state = { ud with faqTopic := none } ∧
        logActions (handle_text g ipb u t ud).events = ["faq_question", "faq_answer"] ∧
        Event.replyMessage (ask_gemini g t.trim (some topic)) ∈ (handle_text g ipb u t ud).events) ∧
    (ud.faqTopic = none → ud.awaitingIp = true →
        (handle_text g ipb u t ud).state = { ud with awaitingIp := false } ∧
        logActions (handle_text g ipb u t ud).events = ["ip_query", "ip_result"] ∧
        Event.replyMessage (ipLookupResult ipb t.trim) ∈ (handle_text g ipb u t ud).events) ∧
    (ud.faqTopic = none → ud.awaitingIp = false → ud.awaitingHash = true →
        (handle_text g ipb u t ud).state = { ud with awaitingHash := false } ∧
        logActions (handle_text g ipb u t ud).events = ["hash_query", "hash_result"] ∧
        Event.replyMessage hashCheckResult ∈ (handle_text g ipb u t ud).events) ∧
    (ud.faqTopic = none → ud.awaitingIp = false → ud.awaitingHash = false →
        (handle_text g ipb u t ud).state = ud ∧
        logActions (handle_text g ipb u t ud).events = ["general_question", "general_answer"] ∧
        Event.replyMessage (ask_gemini g t.trim none) ∈ (handle_text g ipb u t ud).events) := by
  rcases ud with ⟨ft, ip, hs⟩
  refine ⟨?_, ?_, ?_, ?_⟩ <;> intros <;> simp_all [handle_text, logActions]

/-- C3 witness: with a pending FAQ topic and no awaiting flags, the FAQ
branch is taken on a concrete message. -/
theorem C3_dispatch_priority_witness :
    (handle_text okGemini failIpBackend 1 "hi"
        { faqTopic := some "cyber", awaitingIp := false, awaitingHash := false }).state
      = { ({ faqTopic := some "cyber", awaitingIp := false, awaitingHash := false } : UserData)
            with faqTopic := none } ∧
    logActions (handle_text okGemini failIpBackend 1 "hi"
        { faqTopic := some "cyber", awaitingIp := false, awaitingHash := false }).events
      = ["faq_question", "faq_answer"] ∧
    Event.replyMessage (ask_gemini okGemini "hi".trim (some "cyber"))
      ∈ (handle_text okGemini failIpBackend 1 "hi"
          { faqTopic := some "cyber", awaitingIp := false, awaitingHash := false }).events :=
  (C3_dispatch_priority okGemini failIpBackend 1 "hi"
    { faqTopic := some "cyber", awaitingIp := false, awaitingHash := false }).1 "cyber" rfl

/-- C4 counterexample: an unrecognized callback token produces no reply
message and no message edit at all — the handler's trace renders nothing
user-visible, contradicting reply totality for unrecognized menu actions. -/
theorem C4_counterexample :
    countReplies (button_router 3 "bogus_token" emptyUserData).events = 0 :=
  rfl

/-- C4 (amended): every free-text message and every recognized callback
token is answered with at least one reply message or message edit; an
unrecognized callback token, however, produces no user-visible output (only
the callback acknowledgement and the `button_click` log write). -/
theorem C4_reply_totality (g : String → GeminiOutcome) (ipb : String → IpOutcome)
    (u : Nat) (t : String) (ud : UserData) (r c : String) :
    1 ≤ countReplies (handle_text g ipb u t ud).events ∧
    1 ≤ countReplies (button_router u "menu_faq" ud).events ∧
    1 ≤ countReplies (button_router u ("faq_" ++ r) ud).events ∧
    1 ≤ countReplies (button_router u "menu_tools" ud).events ∧
    1 ≤ countReplies (button_router u "tool_ip" ud).events ∧
    1 ≤ countReplies (button_router u "tool_hash" ud).events ∧
    1 ≤ countReplies (button_router u "menu_emergency" ud).events ∧
    1 ≤ countReplies (button_router u "back_to_main" ud).events ∧
    (recognizedToken c = false → countReplies (button_router u c ud).events = 0) := by
  refine ⟨?_, Nat.le_refl 1, ?_, Nat.le_refl 1, Nat.le_refl 1, Nat.le_refl 1,
    Nat.le_refl 1, Nat.le_refl 1, ?_⟩
  · rcases ud with ⟨ft, ip, hs⟩
    cases ft <;> cases ip <;> cases hs <;> simp [handle_text, countReplies]
  · simp [button_router, faq_append_beq_menu_faq, pyStartsWith_faq_append, countReplies]
  · intro h
    rw [button_router_unrecognized u c ud h]
    rfl

/-- C4 witness: a concrete unrecognized token yields a silent trace. -/
theorem C4_reply_totality_witness :
    countReplies (button_router 2 "bogus" emptyUserData).events = 0 :=
  (C4_reply_totality okGemini failIpBackend 2 "x" emptyUserData "" "bogus").2.2.2.2.2.2.2.2 rfl

/-- C5 counterexample: for a concrete unrecognized token the full trace is
the acknowledgement plus the generic `button_click` entry — no log entry
identifies the action as unhandled. -/
theorem C5_counterexample :
    (button_router 1 "totally_unknown" emptyUserData).state = emptyUserData ∧
    (button_router 1 "totally_unknown" emptyUserData).events
        = [Event.answerCallback,
           Event.logEntry 1 "button_click" [("choice", "totally_unknown")]] ∧
    logActions (button_router 1 "totally_unknown" emptyUserData).events = ["button_click"] :=
  ⟨rfl, rfl, rfl⟩

/-- C5 (amended): an unrecognized callback token mutates no user state and
does not crash, but the only log record written is the generic
`button_click` entry carrying the raw token — there is no unhandled-action
record. -/
theorem C5_unrecognized_token_behavior (u : Nat) (c : String) (ud : UserData)
    (h : recognizedToken c = false) :
    (button_router u c ud).state = ud ∧
    (button_router u c ud).events
        = [Event.answerCallback, Event.logEntry u "button_click" [("choice", c)]] ∧
    logActions (button_router u c ud).events = ["button_click"] := by
  rw [button_router_unrecognized u c ud h]
  exact ⟨rfl, rfl, rfl⟩

/-- C5 witness: the amended behavior at a concrete unrecognized token. -/
theorem C5_unrecognized_token_witness :
    (button_router 4 "zzz" emptyUserData).state = emptyUserData ∧
    (button_router 4 "zzz" emptyUserData).events
        = [Event.answerCallback, Event.logEntry 4 "button_click" [("choice", "zzz")]] ∧
    logActions (button_router 4 "zzz" emptyUserData).events = ["button_click"] :=
  C5_unrecognized_token_behavior 4 "zzz" emptyUserData rfl

/-- C6 (confirmed): `ask_gemini` maps every backend outcome to a returned
string — the stripped response text on success, and on failure the degraded
user-facing message embedding the error description truncated to at most
100 characters; no exception propagates to the caller. -/
theorem C6_faq_adapter_never_raises (backend : String → GeminiOutcome) (q : String)
    (topic : Option String) :
    (∀ a, backend (geminiPrompt q topic) = GeminiOutcome.ok a →
        ask_gemini backend q topic = a.trim) ∧
    (∀ e, backend (geminiPrompt q topic) = GeminiOutcome.err e →
        ask_gemini backend q topic
            = "❗️ Sorry, FAQ service is temporarily unavailable. Error: "
                ++ pyTruncate e 100 ++ "..."
          ∧ (pyTruncate e 100).length ≤ 100) := by
  constructor
  · intro a h
    unfold ask_gemini
    rw [h]
  · intro e h
    constructor
    · unfold ask_gemini
      rw [h]
    · exact pyTruncate_length_le e 100

/-- C6 witness: a concrete failing backend yields the degraded message. -/
theorem C6_faq_adapter_witness :
    ask_gemini errGemini "hello" none
        = "❗️ Sorry, FAQ service is temporarily unavailable. Error: "
            ++ pyTruncate "boom" 100 ++ "..."
      ∧ (pyTruncate "boom" 100).length ≤ 100 :=
  (C6_faq_adapter_never_raises errGemini "hello" none).2 "boom" rfl

/-- C7 (confirmed): the IP branch always produces a result string: on a
transport or parsing failure the generic failure string embedding the
exception description, and on a structured response whose status is not
"success" the backend's message string. -/
theorem C7_ip_adapter_error_behavior (ipb : String → IpOutcome) (text : String) :
    (∀ e, ipb (ipApiUrl text) = IpOutcome.transportError e →
        ipLookupResult ipb text = "❌ Failed to fetch IP info: " ++ e) ∧
    (∀ res, ipb (ipApiUrl text) = IpOutcome.response res →
        dictGet res "status" = none →
        ipLookupResult ipb text = "❌ Failed to fetch IP info: " ++ pyKeyError "status") ∧
    (∀ res s m, ipb (ipApiUrl text) = IpOutcome.response res →
        dictGet res "status" = some s → s ≠ "success" → dictGet res "message" = some m →
        ipLookupResult ipb text = "⚠️ Error: " ++ m) := by
  refine ⟨?_, ?_, ?_⟩
  · intro e h
    unfold ipLookupResult ipTryBlock
    rw [h]
  · intro res h hs
    unfold ipLookupResult ipTryBlock
    rw [h]
    simp [hs]
  · intro res s m h hs hne hm
    have hb : (s == "success") = false := beq_eq_false_iff_ne.mpr hne
    unfold ipLookupResult ipTryBlock
    rw [h]
    simp [hs, hb, hm]

/-- C7 witness: a concrete structured-failure backend surfaces its message. -/
theorem C7_ip_adapter_witness :
    ipLookupResult failIpBackend "abc" = "⚠️ Error: " ++ "invalid query" :=
  (C7_ip_adapter_error_behavior failIpBackend "abc").2.2
    [("status", "fail"), ("message", "invalid query")] "fail" "invalid query"
    rfl rfl (by decide) rfl

/-- C8 (confirmed): every free-text message produces exactly two interaction
log entries — the branch's inbound-query entry followed by its
answer/result entry, in that order. -/
theorem C8_request_then_response_logging (g : String → GeminiOutcome)
    (ipb : String → IpOutcome) (u : Nat) (t : String) (ud : UserData) :
    (logActions (handle_text g ipb u t ud).events).length = 2 ∧
    (logActions (handle_text g ipb u t ud).events = ["faq_question", "faq_answer"] ∨
     logActions (handle_text g ipb u t ud).events = ["ip_query", "ip_result"] ∨
     logActions (handle_text g ipb u t ud).events = ["hash_query", "hash_result"] ∨
     logActions (handle_text g ipb u t ud).events = ["general_question", "general_answer"]) := by
  rcases ud with ⟨ft, ip, hs⟩
  cases ft <;> cases ip <;> cases hs <;> simp [handle_text, logActions]

/-- C9 (confirmed): every token of the form `faq_<rest>` sets the pending
topic to the substring after the first underscore; in particular the bare
token `faq_` sets the empty-string topic, and that state still routes the
next free-text message through the FAQ-with-topic branch, because dispatch
tests key presence rather than truthiness. -/
theorem C9_faq_prefix_sets_suffix_topic (u : Nat) (ud : UserData) (r t : String)
    (g : String → GeminiOutcome) (ipb : String → IpOutcome) :
    (button_router u ("faq_" ++ r) ud).state.faqTopic = some r ∧
    (button_router u "faq_" ud).state.faqTopic = some "" ∧
    logActions (handle_text g ipb u t (button_router u "faq_" ud).state).events
        = ["faq_question", "faq_answer"] := by
  refine ⟨?_, rfl, rfl⟩
  simp [button_router, faq_append_beq_menu_faq, pyStartsWith_faq_append,
    pySplitOnceAfter_faq_append]

/-- C10 (confirmed): every callback event's trace begins with the
acknowledgement followed immediately by a single `button_click` log entry
carrying the raw token, and no other log entry is written by
`button_router`, so the entry precedes every menu render of the event. -/
theorem C10_button_click_logged_first (u : Nat) (c : String) (ud : UserData) :
    (button_router u c ud).events.take 2
        = [Event.answerCallback, Event.logEntry u "button_click" [("choice", c)]] ∧
    logActions (button_router u c ud).events = ["button_click"] := by
  obtain ⟨rest, hev, hrest⟩ := button_router_shape u c ud
  rw [hev]
  exact ⟨rfl, by simp [logActions, hrest]⟩
